import Mathlib

/-!
Shallow embedding of `src/dashboard.py`, a single-page revenue analytics
dashboard.  The dashboard embeds its conversion records as an inline list
literal (`data`), cleans them with `process_data`, and computes KPI values
and chart aggregates from the processed rows.  Pandas dataframes are
modelled as lists of records and the fallible positional indexing
`.values[0]` as `Option`.  Money amounts, exact decimals with at most two
fractional digits in the source, are modelled in integer cents (so the
float literal `7018.92` becomes `701892` cents); endpoint counts are
integers.  The division in the average-revenue KPIs is exact division
in `ℚ` of the cast cent amounts.
-/

namespace Dashboard

/-! ### String helpers mirroring the Python string operations used -/

/-- ASCII lowercasing of a single character, as Python `str.lower` acts on
the ASCII product names in the dataset. -/
def lowerChar (c : Char) : Char :=
  if 'A' ≤ c ∧ c ≤ 'Z' then Char.ofNat (c.toNat + 32) else c

/-- Python `str.lower` on a string (ASCII). -/
def lowerStr (s : String) : String := ⟨s.data.map lowerChar⟩

/-- Python `str.split(sep)` for a single-character separator, on the
character list of a string.  Non-collapsing: `"a  b".split(' ')` is
`["a", "", "b"]` and `"".split(' ')` is `[""]`. -/
def splitOnChar (sep : Char) : List Char → List (List Char)
  | [] => [[]]
  | c :: cs =>
    match splitOnChar sep cs with
    | [] => [[]]
    | g :: gs => if c = sep then [] :: g :: gs else (c :: g) :: gs

/-- `listStartsWith needle hay` : the needle is an initial segment of hay. -/
def listStartsWith : List Char → List Char → Bool
  | [], _ => true
  | _ :: _, [] => false
  | a :: as, b :: bs => a == b && listStartsWith as bs

/-- Python `needle in hay` substring containment, on character lists. -/
def listContains (needle : List Char) : List Char → Bool
  | [] => listStartsWith needle []
  | c :: cs => listStartsWith needle (c :: cs) || listContains needle cs

/-! ### Dataframe helpers: drop_duplicates, groupby().sum(), sorting -/

/-- Pandas `drop_duplicates`: keep the first occurrence of each value. -/
def dropDupAux [DecidableEq α] (seen : List α) : List α → List α
  | [] => []
  | a :: l => if a ∈ seen then dropDupAux seen l else a :: dropDupAux (a :: seen) l

/-- Pandas `drop_duplicates` on a list. -/
def dropDup [DecidableEq α] (l : List α) : List α := dropDupAux [] l

/-- Lexicographic `≤` on character lists by code point, the order Python
uses to compare the strings appearing as group keys. -/
def listCharLe : List Char → List Char → Bool
  | [], _ => true
  | _ :: _, [] => false
  | a :: as, b :: bs => decide (a < b) || (a == b && listCharLe as bs)

/-- Lexicographic `≤` on strings. -/
def stringLe (a b : String) : Bool := listCharLe a.data b.data

/-- Pandas `df.groupby(key)[val].sum().reset_index()`: one `(key, sum)` pair
per distinct key, keys sorted (groupby's default `sort=True`). -/
def groupBySum (key : α → String) (val : α → ℤ) (rows : List α) : List (String × ℤ) :=
  (List.insertionSort (fun a b => stringLe a b = true) (dropDup (rows.map key))).map fun k =>
    (k, ((rows.filter fun r => key r == k).map val).sum)

/-- `g[g[col] == t][val].values[0]` : the first aggregate value recorded for
key `t`, `none` when the key is absent (pandas would raise `IndexError`). -/
def lookupSum (g : List (String × ℤ)) (t : String) : Option ℤ :=
  ((g.filter fun p => p.1 == t).map fun p => p.2).head?

/-! ### The data model -/

/-- One conversion record, with the fields of the dicts in the `data`
literal of `src/dashboard.py` (lines 61-778); `revenue` and `cpl` are in
integer cents. -/
structure Row where
  update_as : String
  Domain : String
  endpoints : ℤ
  revenue : ℤ
  edition : String
  license_date : String
  product : String
  country : String
  industry : String
  type : String
  cpl : ℤ
deriving DecidableEq, Repr

/-- A row of `processed_df`: the original columns plus the three columns
`process_data` adds. -/
structure PRow extends Row where
  month : String
  deployment : String
  edition_simple : String
deriving DecidableEq, Repr

/-- `df['update_as'].str.split(' ').str[0]` for one cell. -/
def monthOf (s : String) : String := ⟨(splitOnChar ' ' s.data).headD []⟩

/-- `'Cloud' if 'cloud' in str(x) else 'On-Premises'` applied to the
lowercased product name (dashboard.py line 801). -/
def deploymentOf (product : String) : String :=
  if listContains "cloud".data (lowerStr product).data then "Cloud" else "On-Premises"

/-- `df['edition'].str.split(' ').str[0]` for one cell. -/
def editionSimpleOf (s : String) : String := ⟨(splitOnChar ' ' s.data).headD []⟩

/-- The per-row action of `process_data` (dashboard.py lines 782-808) on a
well-typed row: `pd.to_numeric` on the already-numeric `revenue` and
`endpoints` columns and `astype(str)` on the already-string `update_as`,
`product` and `edition` columns are identities, and the three derived
columns `month`, `deployment`, `edition_simple` are added. -/
def processRow (r : Row) : PRow :=
  { r with
    month := monthOf r.update_as
    deployment := deploymentOf r.product
    edition_simple := editionSimpleOf r.edition }

/-- `process_data` on a dataframe of well-typed rows: row-wise column
derivation; the copy at line 784 makes it pure. -/
def process_data (df : List Row) : List PRow := df.map processRow


/-- The inline dataset of `src/dashboard.py` (lines 61-778), transcribed
record by record; `revenue` and `cpl` in integer cents (`7018.92` dollars
is `701892` cents). -/
def data : List Row := [
  {update_as := "Jan 2025", Domain := "idexcorp.com", endpoints := 250, revenue := 701892, edition := "UEM", license_date := "30/01/2025", product := "Endpoint Central", country := "Netherlands", industry := "Industrial goods and machinery", type := "Zero Cost", cpl := 0},
  {update_as := "Jan 2025", Domain := "redingtongroup.com", endpoints := 200, revenue := 244230, edition := "Enterprise", license_date := "30/01/2025", product := "PMP Cloud", country := "United Arab Emirates", industry := "IT", type := "Zero Cost", cpl := 0},
  {update_as := "Feb 2025", Domain := "co.ellis.tx.us", endpoints := 580, revenue := 298200, edition := "Enterprise", license_date := "15/02/2025", product := "Patch Manager Plus", country := "US", industry := "Federal", type := "Purchased", cpl := 40},
  {update_as := "Feb 2025", Domain := "aventiv.com", endpoints := 950, revenue := 869800, edition := "Enterprise", license_date := "14/02/2025", product := "Patch Manager Plus", country := "US", industry := "Federal", type := "Purchased", cpl := 40},
  {update_as := "Feb 2025", Domain := "baystateinterpreters.com", endpoints := 110, revenue := 84000, edition := "Enterprise", license_date := "2/4/2025", product := "Patch Manager Plus", country := "US", industry := "Translation services", type := "Purchased", cpl := 40},
  {update_as := "Feb 2025", Domain := "thecityofriles.com", endpoints := 50, revenue := 146300, edition := "Professional", license_date := "13/02/2025", product := "Mobile Device Manager", country := "US", industry := "Federal", type := "Purchased", cpl := 40},
  {update_as := "Feb 2025", Domain := "blackedge.com", endpoints := 200, revenue := 807500, edition := "Enterprise", license_date := "14/02/2025", product := "OS Deployer", country := "US", industry := "Finance", type := "Purchased", cpl := 40},
  {update_as := "Feb 2025", Domain := "bobbrowauto.com", endpoints := 250, revenue := 149500, edition := "Enterprise", license_date := "2/11/2025", product := "OS Deployer", country := "US", industry := "Automotive", type := "Purchased", cpl := 40},
  {update_as := "Feb 2025", Domain := "skylinenationalbank.com", endpoints := 500, revenue := 3148800, edition := "UEM", license_date := "2/8/2025", product := "Endpoint Central", country := "US", industry := "Banking", type := "Purchased", cpl := 40},
  {update_as := "Feb 2025", Domain := "orabandamining.com.au", endpoints := 256, revenue := 1000797, edition := "Security", license_date := "27/2/2025", product := "Endpoint Central Cloud", country := "Australia", industry := "Mining industry", type := "Zero Cost", cpl := 40},
  {update_as := "Feb 2025", Domain := "imagenetconsulting.com", endpoints := 575, revenue := 594100, edition := "Enterprise", license_date := "21/2/2025", product := "VMP", country := "US", industry := "IT", type := "Purchased", cpl := 40},
  {update_as := "Feb 2025", Domain := "indysoft.com", endpoints := 70, revenue := 317300, edition := "Security", license_date := "26/2/2025", product := "Endpoint Central Cloud", country := "US", industry := "Software solutions", type := "Purchased", cpl := 40},
  {update_as := "Feb 2025", Domain := "dessercom.org", endpoints := 250, revenue := 201600, edition := "Enterprise", license_date := "13/02/2025", product := "PMP Cloud", country := "Canada", industry := "Emergency medical services", type := "Zero Cost", cpl := 0},
  {update_as := "Feb 2025", Domain := "toughbuilt.com", endpoints := 250, revenue := 442100, edition := "Enterprise", license_date := "28/2/2025", product := "Endpoint Central MSP Cloud", country := "US", industry := "Construction tools and accessories", type := "Zero Cost", cpl := 0},
  {update_as := "Mar 2025", Domain := "bensonsforbed.co.uk", endpoints := 60, revenue := 10112, edition := "Professional (Monthly payment)", license_date := "3/3/2025", product := "PMP Cloud", country := "UK", industry := "Retail", type := "Purchased", cpl := 60},
  {update_as := "Mar 2025", Domain := "buckeyebroadband.com", endpoints := 2800, revenue := 6281020, edition := "UEM", license_date := "4/3/2025", product := "Endpoint Central Cloud", country := "US", industry := "Telecommunications", type := "Purchased", cpl := 40},
  {update_as := "Mar 2025", Domain := "apsystem.it", endpoints := 52, revenue := 53570, edition := "Enterprise", license_date := "14/3/2025", product := "VMP", country := "Netherlands", industry := "Renewable energy sector", type := "Zero Cost", cpl := 0},
  {update_as := "Mar 2025", Domain := "apsystem.it", endpoints := 52, revenue := 233825, edition := "Enterprise", license_date := "14/3/2025", product := "Endpoint Central", country := "Netherlands", industry := "Renewable energy sector", type := "Zero Cost", cpl := 0},
  {update_as := "Mar 2025", Domain := "aaml.com.sa", endpoints := 525, revenue := 305550, edition := "Enterprise", license_date := "28/3/2025", product := "Patch Manager Plus", country := "Saudi Arabia", industry := "Diagnostic imaging services", type := "Zero Cost", cpl := 0},
  {update_as := "Mar 2025", Domain := "acmcle.com.hk", endpoints := 100, revenue := 25594, edition := "Professional", license_date := "10/3/2025", product := "Patch Manager Plus", country := "Hong Kong", industry := "Educational", type := "Zero Cost", cpl := 0},
  {update_as := "Mar 2025", Domain := "aurigaspa.com", endpoints := 680, revenue := 4210470, edition := "Security", license_date := "31/3/2025", product := "Endpoint Central", country := "Italy", industry := "Information Technology and Services", type := "Zero Cost", cpl := 0},
  {update_as := "Mar 2025", Domain := "nagase-nam.com", endpoints := 150, revenue := 411200, edition := "Enterprise", license_date := "26/3/2025", product := "Endpoint Central Cloud", country := "US", industry := "Chemical Manufacturing", type := "Purchased", cpl := 40},
  {update_as := "Apr 2025", Domain := "1st-edge.com", endpoints := 175, revenue := 301000, edition := "Enterprise", license_date := "30/4/2025", product := "VMP", country := "US", industry := "Defense and Space Manufacturing", type := "Purchased", cpl := 40},
  {update_as := "Apr 2025", Domain := "agrikemilau.com", endpoints := 50, revenue := 83850, edition := "Enterprise", license_date := "23/4/2025", product := "Endpoint Central", country := "Indonesia", industry := "Agriculture", type := "Zero Cost", cpl := 0},
  {update_as := "Apr 2025", Domain := "apsystems.tech", endpoints := 100, revenue := 284400, edition := "Security", license_date := "15/4/2025", product := "Endpoint Central Cloud", country := "Poland", industry := "Solar Energy / Renewable Energy", type := "Zero Cost", cpl := 0},
  {update_as := "Apr 2025", Domain := "cna.org.br", endpoints := 515, revenue := 402400, edition := "Professional", license_date := "2/4/2025", product := "Endpoint Central", country := "Brazil", industry := "Nonprofit Research and Analysis", type := "Zero Cost", cpl := 0},
  {update_as := "Apr 2025", Domain := "fairmountpark.com", endpoints := 180, revenue := 949200, edition := "Security", license_date := "30/4/2025", product := "Endpoint Central Cloud", country := "US, Canada", industry := "Gambling Facilities and Casinos", type := "Purchased", cpl := 40},
  {update_as := "Apr 2025", Domain := "geniodiligence.it", endpoints := 85, revenue := 363000, edition := "Security", license_date := "30/4/2025", product := "Endpoint Central", country := "Italy", industry := "Banking / Fintech", type := "Zero Cost", cpl := 0},
  {update_as := "Apr 2025", Domain := "harrisseeds.com", endpoints := 135, revenue := 554900, edition := "Enterprise", license_date := "24/4/2025", product := "Endpoint Central Cloud", country := "US", industry := "Farming / Horticulture", type := "Purchased", cpl := 40},
  {update_as := "Apr 2025", Domain := "lamache.org", endpoints := 925, revenue := 2803500, edition := "UEM", license_date := "9/4/2025", product := "Endpoint Central", country := "France", industry := "Education / Vocational Training", type := "Zero Cost", cpl := 0},
  {update_as := "Apr 2025", Domain := "medicareonline.it", endpoints := 400, revenue := 1318000, edition := "Professional", license_date := "30/4/2025", product := "Mobile Device Manager Plus Cloud", country := "Italy", industry := "Healthcare Data Analytics", type := "Zero Cost", cpl := 0},
  {update_as := "Apr 2025", Domain := "prosearch.com", endpoints := 1755, revenue := 4386200, edition := "Security", license_date := "30/4/2025", product := "Endpoint Central", country := "US", industry := "Legal Technology / E-Discovery", type := "Purchased", cpl := 0},
  {update_as := "Apr 2025", Domain := "sau53.org", endpoints := 55, revenue := 381900, edition := "Enterprise", license_date := "26/4/2025", product := "Patch Manager Plus", country := "US", industry := "Education", type := "Purchased", cpl := 0},
  {update_as := "Apr 2025", Domain := "shieldcompany.com.br", endpoints := 320, revenue := 637200, edition := "Security", license_date := "2/4/2025", product := "Endpoint Central", country := "Brazil", industry := "Healthcare Logistics / Cold Chain Solutions", type := "Zero Cost", cpl := 0},
  {update_as := "Apr 2025", Domain := "whitelabgx.com", endpoints := 70, revenue := 332240, edition := "Security", license_date := "10/4/2025", product := "Endpoint Central Cloud", country := "France", industry := "Biotechnology Research", type := "Zero Cost", cpl := 0},
  {update_as := "Apr 2025", Domain := "grupocox.com", endpoints := 5000, revenue := 4480500, edition := "Security", license_date := "26/4/2025", product := "Endpoint Central Cloud", country := "Spain", industry := "Water and Energy Utilities", type := "Zero Cost", cpl := 0},
  {update_as := "Apr 2025", Domain := "hindujahousingfinance.com", endpoints := 2515, revenue := 3209540, edition := "Security", license_date := "30/4/2025", product := "Endpoint Central Cloud", country := "India", industry := "Financial Services / Housing Finance", type := "Zero Cost", cpl := 0},
  {update_as := "May 2025", Domain := "hirschsecure.com", endpoints := 206, revenue := 486500, edition := "Enterprise", license_date := "7/5/2025", product := "Endpoint Central", country := "US", industry := "Security Technology", type := "Purchased", cpl := 40},
  {update_as := "May 2025", Domain := "vulcabras.com", endpoints := 1900, revenue := 2200000, edition := "Security", license_date := "31/5/2025", product := "Endpoint Central", country := "Brazil", industry := "Footwear Manufacturing", type := "Zero Cost", cpl := 0},
  {update_as := "May 2025", Domain := "xops.io", endpoints := 120, revenue := 118000, edition := "Enterprise", license_date := "10/5/2025", product := "PMP Cloud", country := "US", industry := "Software Development / IT Operations", type := "Purchased", cpl := 40},
  {update_as := "May 2025", Domain := "wasa-technologies.com", endpoints := 100, revenue := 117425, edition := "Professional", license_date := "15/5/2025", product := "Endpoint Central", country := "Germany", industry := "Concrete Production Technology", type := "Zero cost", cpl := 0},
  {update_as := "May 2025", Domain := "landform.ca", endpoints := 38, revenue := 92000, edition := "Professional", license_date := "9/5/2025", product := "MDM OnDemand", country := "Canada", industry := "Landscape Construction", type := "Zero Cost", cpl := 0},
  {update_as := "May 2025", Domain := "kokusai-electric.com", endpoints := 310, revenue := 2724000, edition := "UEM", license_date := "15/5/2025", product := "Endpoint Central", country := "US", industry := "Semiconductor Manufacturing Equipment", type := "Purchased", cpl := 40},
  {update_as := "May 2025", Domain := "it-advisor.ch", endpoints := 50, revenue := 167700, edition := "Enterprise", license_date := "31/5/2025", product := "Patch Manager Plus", country := "Switzerland", industry := "IT Consulting", type := "Zero Cost", cpl := 0},
  {update_as := "May 2025", Domain := "bonollo.it", endpoints := 125, revenue := 43869, edition := "Enterprise", license_date := "24/5/2025", product := "Vulnerability Manager Plus", country := "Italy", industry := "Spirits & Distillation", type := "Zero Cost", cpl := 0},
  {update_as := "May 2025", Domain := "bonollo.it", endpoints := 125, revenue := 168768, edition := "Enterprise", license_date := "24/5/2025", product := "Endpoint Central", country := "Italy", industry := "Spirits & Distillation", type := "Zero Cost", cpl := 0},
  {update_as := "May 2025", Domain := "bonollo.it", endpoints := 125, revenue := 75240, edition := "Enterprise", license_date := "24/5/2025", product := "OS Deployer", country := "Italy", industry := "Spirits & Distillation", type := "Zero Cost", cpl := 0},
  {update_as := "May 2025", Domain := "merchantscx.co.za", endpoints := 3800, revenue := 2168625, edition := "Enterprise", license_date := "29/5/2025", product := "Endpoint Central", country := "South Africa", industry := "Customer Experience Management", type := "Zero Cost", cpl := 0},
  {update_as := "May 2025", Domain := "asp.gov.md", endpoints := 2500, revenue := 1432340, edition := "Professional", license_date := "17/5/2025", product := "Device Control Plus", country := "Romania", industry := "Government Services", type := "Zero Cost", cpl := 0},
  {update_as := "May 2025", Domain := "ny-creates.org", endpoints := 1100, revenue := 6495000, edition := "Security", license_date := "13/5/2025", product := "Endpoint Central Cloud", country := "US", industry := "Semiconductor Research & Development", type := "Purchased", cpl := 40},
  {update_as := "May 2025", Domain := "nederlander.com", endpoints := 250, revenue := 2022000, edition := "UEM", license_date := "13/5/2025", product := "Endpoint Central Cloud", country := "US", industry := "Live Entertainment", type := "Purchased", cpl := 40},
  {update_as := "May 2025", Domain := "abxnetwork.pro", endpoints := 1000, revenue := 1615800, edition := "Security", license_date := "10/5/2025", product := "Endpoint Central", country := "Cyprus", industry := "Blockchain & Cryptocurrency", type := "Zero Cost", cpl := 0},
  {update_as := "May 2025", Domain := "pedongroup.com", endpoints := 120, revenue := 203857, edition := "Enterprise", license_date := "30/5/2025", product := "Endpoint Central Cloud", country := "Italy", industry := "Construction & Real Estate", type := "Zero Cost", cpl := 0},
  {update_as := "May 2025", Domain := "schur.com", endpoints := 1000, revenue := 2081430, edition := "Security", license_date := "16/5/2025", product := "Endpoint Central Cloud", country := "Denmark", industry := "Packaging Solutions", type := "Zero Cost", cpl := 0},
  {update_as := "May 2025", Domain := "adlerpelzer.com", endpoints := 5500, revenue := 1626445, edition := "Enterprise", license_date := "21/5/2025", product := "Patch Manager Plus", country := "Germany", industry := "Automotive manufacturing", type := "Zero Cost", cpl := 0}
]

/-! ### The KPI / chart pipeline (dashboard.py lines 811-830, 880-887, 1150-1163) -/

/-- `processed_df = process_data(df)` where `df = pd.DataFrame(data)`. -/
def processed_df : List PRow := process_data data

/-- `total_revenue = processed_df['revenue'].sum()` (line 816). -/
def total_revenue : ℤ := (processed_df.map fun r => r.revenue).sum

/-- `total_endpoints = processed_df['endpoints'].sum()` (line 817). -/
def total_endpoints : ℤ := (processed_df.map fun r => r.endpoints).sum

/-- `processed_df[['Domain', 'type']].drop_duplicates()` on any dataframe. -/
def uniqueDomainsOf (rows : List PRow) : List (String × String) :=
  dropDup (rows.map fun r => (r.Domain, r.type))

/-- Count of unique (Domain, type) pairs whose type is `t`. -/
def leadCountOf (t : String) (rows : List PRow) : Nat :=
  ((uniqueDomainsOf rows).filter fun p => p.2 == t).length

/-- `revenue_by_lead_type = processed_df.groupby('type')['revenue'].sum()`. -/
def revenueByLeadTypeOf (rows : List PRow) : List (String × ℤ) :=
  groupBySum (fun r => r.type) (fun r => r.revenue) rows

/-- `avg = rblt[rblt['type'] == t]['revenue'].values[0] / leads if leads > 0 else 0`
(lines 827-830): `none` would mean the `IndexError` the `.values[0]` can raise. -/
def avgRevenuePerLeadOf (t : String) (rows : List PRow) : Option ℚ :=
  if leadCountOf t rows > 0 then
    (lookupSum (revenueByLeadTypeOf rows) t).map fun v => (v : ℚ) / (leadCountOf t rows : ℚ)
  else some 0

/-- `unique_domains` of the concrete pipeline (line 819). -/
def unique_domains : List (String × String) := uniqueDomainsOf processed_df

/-- `paid_leads` (line 820). -/
def paid_leads : Nat := leadCountOf "Purchased" processed_df

/-- `zero_cost_leads` (line 821). -/
def zero_cost_leads : Nat := leadCountOf "Zero Cost" processed_df

/-- `revenue_by_lead_type` of the concrete pipeline (line 824). -/
def revenue_by_lead_type : List (String × ℤ) := revenueByLeadTypeOf processed_df

/-- `avg_revenue_per_paid` (lines 827-828). -/
def avg_revenue_per_paid : Option ℚ := avgRevenuePerLeadOf "Purchased" processed_df

/-- `avg_revenue_per_zero_cost` (lines 829-830). -/
def avg_revenue_per_zero_cost : Option ℚ := avgRevenuePerLeadOf "Zero Cost" processed_df

/-- `month_order` (lines 883-884). -/
def month_order : List (String × Nat) :=
  [("Jan", 1), ("Feb", 2), ("Mar", 3), ("Apr", 4), ("May", 5), ("Jun", 6),
   ("Jul", 7), ("Aug", 8), ("Sep", 9), ("Oct", 10), ("Nov", 11), ("Dec", 12)]

/-- `.map(month_order)`: `none` is the NaN an unknown month maps to. -/
def monthNum (m : String) : Option Nat := month_order.lookup m

/-- Order on mapped month numbers with NaN (`none`) sorted last, as
`sort_values` places NaN keys. -/
def monthNumLe (a b : Option Nat) : Bool :=
  match a, b with
  | some x, some y => x ≤ y
  | some _, none => true
  | none, some _ => false
  | none, none => true

/-- `.sort_values('month_num')` of the monthly aggregate (line 887). -/
def sortByMonth (l : List (String × ℤ)) : List (String × ℤ) :=
  List.insertionSort (fun a b => monthNumLe (monthNum a.1) (monthNum b.1) = true) l

/-- The monthly-revenue aggregate on any dataframe: groupby month, sum
revenue, then sort rows into calendar order. -/
def monthlyRevenueOf (rows : List PRow) : List (String × ℤ) :=
  sortByMonth (groupBySum (fun r => r.month) (fun r => r.revenue) rows)

/-- `monthly_revenue` handed to the bar chart (lines 880-887). -/
def monthly_revenue : List (String × ℤ) := monthlyRevenueOf processed_df

/-- `size_ranges` (lines 1150-1151); `none` is `float('inf')`. -/
def size_ranges : List (ℤ × Option ℤ) :=
  [(0, some 100), (101, some 200), (201, some 300), (301, some 400), (401, some 500),
   (501, some 600), (601, some 700), (701, some 800), (801, some 900), (901, none)]

/-- `range_labels` (lines 1153-1154). -/
def range_labels : List String :=
  ["0-100", "101-200", "201-300", "301-400", "401-500",
   "501-600", "601-700", "701-800", "801-900", "901+"]

/-- `(processed_df['endpoints'] >= lower) & (processed_df['endpoints'] <= upper)`
for one row and one range; `e <= inf` is always true. -/
def inSizeRange (e : ℤ) (rg : ℤ × Option ℤ) : Bool :=
  decide (rg.1 ≤ e) && (match rg.2 with | some u => decide (e ≤ u) | none => true)

/-- `endpoint_size_distribution` (lines 1156-1163): one `(label, count)`
entry per size range, entries with count 0 dropped. -/
def endpoint_size_distribution (rows : List PRow) : List (String × Nat) :=
  ((size_ranges.zip range_labels).map fun rl =>
    (rl.2, (rows.filter fun r => inSizeRange r.endpoints rl.1).length)).filter
    fun p => p.2 > 0

/-- The KPI block of the dashboard (lines 815-830) as a function of the
dataframe it is computed from: total revenue, total endpoints, paid leads
and zero-cost leads. -/
def kpisOf (df : List Row) : ℤ × ℤ × Nat × Nat :=
  let pdf := process_data df
  ((pdf.map fun r => r.revenue).sum, (pdf.map fun r => r.endpoints).sum,
    leadCountOf "Purchased" pdf, leadCountOf "Zero Cost" pdf)

/-! ### Dynamically-typed cells, for the coercion steps of `process_data`

`pd.to_numeric(..., errors='coerce')` and `astype(str)` act on cells whose
runtime type may be anything; the typed `Row` model above is the special
case of columns that already have the expected types.  This model keeps
the dynamic typing so those cleaning steps are visible. -/

/-- A cell as pandas sees it: a string, a number, or NaN. -/
inductive PyVal where
  | str (s : String)
  | num (q : ℚ)
  | nan
deriving DecidableEq, Repr

/-- Digit test on a character, by code point. -/
def isDigitChar (c : Char) : Bool := 48 ≤ c.toNat && c.toNat ≤ 57

/-- Value of a digit string. -/
def digitsVal (l : List Char) : Nat := l.foldl (fun a c => 10 * a + (c.toNat - 48)) 0

/-- The numeric value of a string, for `pd.to_numeric(_, errors='coerce')`:
an optional sign, an integer part and an optional decimal fraction, at
least one digit in all; anything else (pandas also accepts exponents and
surrounding whitespace, which the dashboard never feeds it) is `none` and
coerces to NaN. -/
def parseNumStr (s : String) : Option ℚ :=
  let sl : ℚ × List Char :=
    match s.data with
    | '-' :: t => (-1, t)
    | '+' :: t => (1, t)
    | l => (1, l)
  let intPart := sl.2.takeWhile isDigitChar
  let rest := sl.2.drop intPart.length
  match rest with
  | [] => if intPart.isEmpty then none else some (sl.1 * (digitsVal intPart : ℚ))
  | '.' :: frac =>
    if frac.all isDigitChar && !(intPart.isEmpty && frac.isEmpty) then
      some (sl.1 * ((digitsVal intPart : ℚ) + (digitsVal frac : ℚ) / (10 : ℚ) ^ frac.length))
    else none
  | _ => none

/-- `pd.to_numeric(_, errors='coerce')` on one cell. -/
def toNumericVal : PyVal → PyVal
  | .num q => .num q
  | .nan => .nan
  | .str s =>
    match parseNumStr s with
    | some q => .num q
    | none => .nan

/-- The string content `str(x)` of a cell (on a number, approximated by the
rational's decimal-fraction rendering; the dashboard only applies it to
columns that already hold strings, where it is exact). -/
def strContent : PyVal → String
  | .str s => s
  | .num q => toString q
  | .nan => "nan"

/-- `astype(str)` on one cell. -/
def astypeStrVal (v : PyVal) : PyVal := .str (strContent v)

/-- A conversion record with dynamically-typed cells, before cleaning. -/
structure PyRow where
  update_as : PyVal
  Domain : PyVal
  endpoints : PyVal
  revenue : PyVal
  edition : PyVal
  license_date : PyVal
  product : PyVal
  country : PyVal
  industry : PyVal
  type : PyVal
  cpl : PyVal
deriving DecidableEq, Repr

/-- A processed dynamically-typed row: the original columns as
`process_data` leaves them, plus the three added columns. -/
structure PyPRow extends PyRow where
  month : PyVal
  deployment : PyVal
  edition_simple : PyVal
deriving DecidableEq, Repr

/-- `process_data` (lines 782-808) on one dynamically-typed row:
`to_numeric` coerces `revenue` and `endpoints`, `astype(str)` coerces
`update_as`, `product` and `edition`, and `month`, `deployment` and
`edition_simple` are derived from the coerced cells.  No other column —
in particular not `type` — is assigned. -/
def pyProcessRow (r : PyRow) : PyPRow :=
  let ua := astypeStrVal r.update_as
  let pr := astypeStrVal r.product
  let ed := astypeStrVal r.edition
  { r with
    revenue := toNumericVal r.revenue
    endpoints := toNumericVal r.endpoints
    update_as := ua
    product := pr
    edition := ed
    month := .str (monthOf (strContent ua))
    deployment := .str (deploymentOf (strContent pr))
    edition_simple := .str (editionSimpleOf (strContent ed)) }

/-- `process_data` on a dynamically-typed dataframe (the `df.copy()` at
line 784 is why it is a pure function of its input). -/
def pyProcessData (df : List PyRow) : List PyPRow := df.map pyProcessRow

/-- A dynamically-typed sample row whose revenue cell holds the
non-numeric string "abc". -/
def pyRowBad : PyRow :=
  { update_as := .str "Jan 2025", Domain := .str "a.com",
    endpoints := .num 5, revenue := .str "abc", edition := .str "UEM",
    license_date := .str "1/1/2025", product := .str "Endpoint Central",
    country := .str "US", industry := .str "IT", type := .str "Purchased",
    cpl := .num 0 }

/-- A dynamically-typed sample row whose cells all already have the types
the cleaning steps coerce to. -/
def pyRowTyped : PyRow :=
  { update_as := .str "Feb 2025", Domain := .str "b.org",
    endpoints := .num 10, revenue := .num 99, edition := .str "Enterprise",
    license_date := .str "1/2/2025", product := .str "PMP Cloud",
    country := .str "US", industry := .str "IT", type := .str "Zero Cost",
    cpl := .num 0 }

/-- The first record of the dataset (idexcorp.com), used as a concrete
sample input. -/
def row0 : Row :=
  { update_as := "Jan 2025", Domain := "idexcorp.com", endpoints := 250, revenue := 701892,
    edition := "UEM", license_date := "30/01/2025", product := "Endpoint Central",
    country := "Netherlands", industry := "Industrial goods and machinery",
    type := "Zero Cost", cpl := 0 }

/-- The second record of the dataset (redingtongroup.com, a Cloud product),
used as a concrete sample input. -/
def row1 : Row :=
  { update_as := "Jan 2025", Domain := "redingtongroup.com", endpoints := 200, revenue := 244230,
    edition := "Enterprise", license_date := "30/01/2025", product := "PMP Cloud",
    country := "United Arab Emirates", industry := "IT", type := "Zero Cost", cpl := 0 }

/-! ### Lemmas about the string helpers -/

theorem splitOnChar_ne_nil (sep : Char) (l : List Char) : splitOnChar sep l ≠ [] := by
  cases l with
  | nil => simp [splitOnChar]
  | cons c cs =>
    rcases h : splitOnChar sep cs with _ | ⟨g, gs⟩
    · simp [splitOnChar, h]
    · by_cases hc : c = sep <;> simp [splitOnChar, h, hc]

/-- The first group of a split is the longest prefix free of the
separator: `s.split(sep)[0]` is the portion of `s` before the first
occurrence of `sep`. -/
theorem headD_splitOnChar (sep : Char) (l : List Char) :
    (splitOnChar sep l).headD [] = l.takeWhile fun c => !(c == sep) := by
  induction l with
  | nil => simp [splitOnChar]
  | cons c cs ih =>
    rcases h : splitOnChar sep cs with _ | ⟨g, gs⟩
    · exact absurd h (splitOnChar_ne_nil sep cs)
    · rw [h] at ih
      simp only [List.headD_cons] at ih
      by_cases hc : c = sep
      · subst hc; simp [splitOnChar, h, List.takeWhile_cons]
      · simp [splitOnChar, h, hc, List.takeWhile_cons, ih]

theorem listStartsWith_iff (n h : List Char) :
    listStartsWith n h = true ↔ ∃ t, h = n ++ t := by
  induction n generalizing h with
  | nil => simp [listStartsWith]
  | cons a as ih =>
    cases h with
    | nil => simp [listStartsWith]
    | cons b bs =>
      simp only [listStartsWith, Bool.and_eq_true, beq_iff_eq, ih, List.cons_append,
        List.cons.injEq]
      constructor
      · rintro ⟨rfl, t, rfl⟩; exact ⟨t, rfl, rfl⟩
      · rintro ⟨t, rfl, rfl⟩; exact ⟨rfl, t, rfl⟩

/-- Python's `needle in hay` is infix containment. -/
theorem listContains_iff (n h : List Char) :
    listContains n h = true ↔ ∃ p t, h = p ++ n ++ t := by
  induction h with
  | nil =>
    simp only [listContains, listStartsWith_iff]
    constructor
    · rintro ⟨t, ht⟩; exact ⟨[], t, by simpa using ht⟩
    · rintro ⟨p, t, ht⟩
      rcases List.append_eq_nil.mp (List.append_eq_nil.mp ht.symm).1 with ⟨rfl, rfl⟩
      exact ⟨[], rfl⟩
  | cons c cs ih =>
    simp only [listContains, Bool.or_eq_true, listStartsWith_iff, ih]
    constructor
    · rintro (⟨t, ht⟩ | ⟨p, t, ht⟩)
      · exact ⟨[], t, by simpa using ht⟩
      · exact ⟨c :: p, t, by simp [ht]⟩
    · rintro ⟨p, t, ht⟩
      cases p with
      | nil => exact Or.inl ⟨t, by simpa using ht⟩
      | cons x xs =>
        right
        simp only [List.cons_append, List.cons.injEq] at ht
        exact ⟨xs, t, ht.2⟩

/-! ### Lemmas about drop_duplicates -/

theorem mem_dropDupAux [DecidableEq α] (seen l : List α) (a : α) :
    a ∈ dropDupAux seen l ↔ a ∈ l ∧ a ∉ seen := by
  induction l generalizing seen with
  | nil => simp [dropDupAux]
  | cons b bs ih =>
    by_cases hb : b ∈ seen
    · simp only [dropDupAux, if_pos hb, ih, List.mem_cons]
      constructor
      · rintro ⟨h1, h2⟩; exact ⟨Or.inr h1, h2⟩
      · rintro ⟨rfl | h1, h2⟩
        · exact absurd hb h2
        · exact ⟨h1, h2⟩
    · simp only [dropDupAux, if_neg hb, List.mem_cons, ih]
      constructor
      · rintro (rfl | ⟨h1, h2⟩) <;> tauto
      · by_cases hab : a = b <;> tauto

theorem nodup_dropDupAux [DecidableEq α] (seen l : List α) : (dropDupAux seen l).Nodup := by
  induction l generalizing seen with
  | nil => simp [dropDupAux]
  | cons b bs ih =>
    by_cases hb : b ∈ seen
    · simpa [dropDupAux, if_pos hb] using ih seen
    · simp only [dropDupAux, if_neg hb, List.nodup_cons]
      refine ⟨fun hmem => ?_, ih (b :: seen)⟩
      exact ((mem_dropDupAux _ _ _).mp hmem).2 (List.mem_cons_self b seen)

theorem mem_dropDup [DecidableEq α] (l : List α) (a : α) : a ∈ dropDup l ↔ a ∈ l := by
  simp [dropDup, mem_dropDupAux]

theorem nodup_dropDup [DecidableEq α] (l : List α) : (dropDup l).Nodup :=
  nodup_dropDupAux [] l

/-! ### Lemmas about the groupby aggregates -/

/-- Looking a key up in a keyed table built over a key list that contains
it yields that key's entry. -/
theorem lookupSum_map_keys (S : String → ℤ) (ks : List String) (k : String)
    (hmem : k ∈ ks) : lookupSum (ks.map fun x => (x, S x)) k = some (S k) := by
  induction ks with
  | nil => simp at hmem
  | cons b bs ih =>
    by_cases hbk : b = k
    · subst hbk
      simp [lookupSum, List.filter_cons]
    · have hb : (b == k) = false := by simp [hbk]
      rcases List.mem_cons.mp hmem with rfl | hmem2
      · exact absurd rfl hbk
      · simpa [lookupSum, List.filter_cons, hb] using ih hmem2

/-- `groupby(key)[val].sum()` records, for every key present in the rows,
the sum of `val` over exactly the rows with that key. -/
theorem lookupSum_groupBySum (key : α → String) (val : α → ℤ) (rows : List α)
    (k : String) (hk : k ∈ rows.map key) :
    lookupSum (groupBySum key val rows) k
      = some ((rows.filter fun r => key r == k).map val).sum := by
  have hperm : (List.insertionSort (fun a b => stringLe a b = true)
      (dropDup (rows.map key))).Perm (dropDup (rows.map key)) :=
    List.perm_insertionSort _ _
  have hmem : k ∈ List.insertionSort (fun a b => stringLe a b = true)
      (dropDup (rows.map key)) :=
    hperm.mem_iff.mpr ((mem_dropDup _ _).mpr hk)
  exact lookupSum_map_keys (fun x => ((rows.filter fun r => key r == x).map val).sum)
    _ k hmem

/-- The lead count of a type is the number of distinct (Domain, type)
pairs carrying that type. -/
theorem leadCountOf_eq_card (t : String) (rows : List PRow) :
    leadCountOf t rows
      = ((rows.map fun r => (r.Domain, r.type)).toFinset.filter fun p => p.2 = t).card := by
  classical
  have hnd : ((dropDup (rows.map fun r => (r.Domain, r.type))).filter
      fun p => p.2 == t).Nodup :=
    (nodup_dropDup _).filter _
  have h1 : leadCountOf t rows
      = ((dropDup (rows.map fun r => (r.Domain, r.type))).filter
          fun p => p.2 == t).length := rfl
  rw [h1, ← List.toFinset_card_of_nodup hnd]
  congr 1
  ext p
  simp [List.mem_filter, mem_dropDup]

/-- The guarded average-revenue computation always produces a value: the
aggregate sum divided by the lead count when the count is positive, and 0
otherwise.  In particular the `.values[0]` indexing never fails and no
division by zero happens. -/
theorem avgRevenuePerLeadOf_eq (t : String) (rows : List PRow) :
    avgRevenuePerLeadOf t rows
      = some (if 0 < leadCountOf t rows then
          ((((rows.filter fun r => r.type == t).map fun r => r.revenue).sum : ℤ) : ℚ)
            / (leadCountOf t rows : ℚ)
        else 0) := by
  by_cases h : 0 < leadCountOf t rows
  · have hne : ((uniqueDomainsOf rows).filter fun p => p.2 == t) ≠ [] := by
      have h2 : 0 < ((uniqueDomainsOf rows).filter fun p => p.2 == t).length := h
      exact List.length_pos.mp h2
    have hmem : t ∈ rows.map fun r => r.type := by
      rcases List.exists_mem_of_ne_nil _ hne with ⟨p, hp⟩
      rcases List.mem_filter.mp hp with ⟨hpd, hpt⟩
      rcases List.mem_map.mp ((mem_dropDup _ _).mp hpd) with ⟨r, hr, hrp⟩
      have hp2 : p.2 = t := by simpa using hpt
      have hrt : r.type = t := by rw [← hp2, ← hrp]
      exact List.mem_map.mpr ⟨r, hr, hrt⟩
    have hlook := lookupSum_groupBySum (fun r => r.type) (fun r => r.revenue) rows t hmem
    simp only [avgRevenuePerLeadOf, revenueByLeadTypeOf, if_pos h, hlook]
    rfl
  · simp only [avgRevenuePerLeadOf, if_neg h]

/-! ### Counting lemmas for the endpoint-size buckets -/

theorem sum_map_add (l : List α) (f g : α → Nat) :
    (l.map fun a => f a + g a).sum = (l.map f).sum + (l.map g).sum := by
  induction l with
  | nil => simp
  | cons b bs ih =>
    simp only [List.map_cons, List.sum_cons, ih]
    omega

theorem countP_eq_sum_map (l : List α) (p : α → Bool) :
    l.countP p = (l.map fun a => if p a then 1 else 0).sum := by
  induction l with
  | nil => simp
  | cons b bs ih =>
    by_cases h : p b <;> simp [List.countP_cons, h, ih, Nat.add_comm]

/-- Double counting: summing bucket sizes over the buckets equals summing,
over the rows, the number of buckets each row falls in. -/
theorem sum_filter_lengths (bs : List β) (rows : List α) (q : α → β → Bool) :
    (bs.map fun b => (rows.filter fun r => q r b).length).sum
      = (rows.map fun r => bs.countP (q r)).sum := by
  induction rows with
  | nil => simp
  | cons r rs ih =>
    have hlen : (fun b => ((r :: rs).filter fun x => q x b).length)
        = fun b => (if q r b then 1 else 0) + ((rs.filter fun x => q x b).length) := by
      funext b
      by_cases h : q r b <;> simp [List.filter_cons, h, Nat.add_comm]
    rw [hlen, sum_map_add, ← countP_eq_sum_map, ih, List.map_cons, List.sum_cons]

/-- Dropping the zero-count entries does not change the total count. -/
theorem sum_filter_pos (l : List (String × Nat)) :
    ((l.filter fun p => p.2 > 0).map fun p => p.2).sum = (l.map fun p => p.2).sum := by
  induction l with
  | nil => simp
  | cons b bs ih =>
    by_cases h : b.2 > 0
    · simp [List.filter_cons, h, ih]
    · have hb : b.2 = 0 := by omega
      simp [List.filter_cons, h, ih, hb]

set_option maxHeartbeats 1000000 in
/-- Every non-negative endpoint count lies in exactly one of the ten size
ranges. -/
theorem size_ranges_partition (e : ℤ) (he : 0 ≤ e) :
    size_ranges.countP (fun rg => inSizeRange e rg) = 1 := by
  simp only [size_ranges, inSizeRange, List.countP_cons, List.countP_nil,
    Bool.and_eq_true, Bool.and_true, decide_eq_true_eq]
  split_ifs <;> omega

/-- The displayed bucket counts add up to the number of rows, whenever
every row's endpoint value is non-negative. -/
theorem endpoint_counts_sum (rows : List PRow)
    (h1 : ∀ r ∈ rows, 0 ≤ r.endpoints) :
    ((endpoint_size_distribution rows).map fun p => p.2).sum = rows.length := by
  unfold endpoint_size_distribution
  rw [sum_filter_pos, List.map_map]
  have hcomp : ((fun p : String × Nat => p.2) ∘ fun rl : (ℤ × Option ℤ) × String =>
      (rl.2, (rows.filter fun r => inSizeRange r.endpoints rl.1).length))
      = fun rl : (ℤ × Option ℤ) × String =>
          (rows.filter fun r => inSizeRange r.endpoints rl.1).length := rfl
  rw [hcomp]
  have hfst : ((size_ranges.zip range_labels).map
      fun rl => (rows.filter fun r => inSizeRange r.endpoints rl.1).length)
      = size_ranges.map fun rg => (rows.filter fun r => inSizeRange r.endpoints rg).length := by
    have hz : (size_ranges.zip range_labels).map Prod.fst = size_ranges :=
      List.map_fst_zip _ _ (by decide)
    rw [← hz, List.map_map]
    rfl
  rw [hfst, sum_filter_lengths]
  have hone : rows.map (fun r => size_ranges.countP fun rg => inSizeRange r.endpoints rg)
      = rows.map fun _ => 1 :=
    List.map_congr_left fun r hr => size_ranges_partition r.endpoints (h1 r hr)
  rw [hone]
  simp [List.map_const]

/-! ### Claim theorems -/

/-- C1 counterexample: the claim "every record's lead-type field is exactly
'Purchased' or 'Zero Cost'" fails at record 40 of the dataset
(wasa-technologies.com), whose type is the case variant "Zero cost". -/
theorem lead_type_not_binary :
    (data.get? 40).map (fun r => r.type) = some "Zero cost"
    ∧ ¬("Zero cost" = "Purchased" ∨ "Zero cost" = "Zero Cost") := by
  refine ⟨by decide, by decide⟩

/-- C1 (amended): every record's lead type is "Purchased" or "Zero Cost"
except the single record for wasa-technologies.com, whose type is the case
variant "Zero cost"; up to lowercasing every record falls in one of the two
categories, and the case-sensitive lead counts assign the variant record to
neither bucket, so the two counts cover one fewer than the distinct
(Domain, type) pairs. -/
theorem lead_type_amended :
    ((data.filter fun r => !(r.type == "Purchased" || r.type == "Zero Cost")).map
        fun r => (r.Domain, r.type)) = [("wasa-technologies.com", "Zero cost")]
    ∧ (∀ r ∈ data, lowerStr r.type = "purchased" ∨ lowerStr r.type = "zero cost")
    ∧ paid_leads + zero_cost_leads + 1 = unique_domains.length := by
  refine ⟨by decide, by decide, by decide⟩

/-- Witness for the amended C1, at the first record of the dataset. -/
theorem lead_type_amended_witness :
    lowerStr (Row.type row0) = "purchased" ∨ lowerStr (Row.type row0) = "zero cost" :=
  lead_type_amended.2.1 row0 (by decide)

/-- C2 counterexample: after `process_data` the dataset still holds the two
case variants "Zero Cost" (record 0) and "Zero cost" (record 40): they
lowercase to the same lead type yet compare unequal, so the lead-type
values were not normalized to a canonical form. -/
theorem lead_type_not_normalized :
    ((process_data data).map fun r => r.type).get? 0 = some "Zero Cost"
    ∧ ((process_data data).map fun r => r.type).get? 40 = some "Zero cost"
    ∧ lowerStr "Zero Cost" = lowerStr "Zero cost"
    ∧ "Zero Cost" ≠ "Zero cost" := by
  refine ⟨by decide, by decide, by decide, by decide⟩

/-- C2 (amended): `process_data` performs no lead-type normalization at
all — it passes the 'type' column through unchanged on every dataframe, so
case or spelling variants remain distinct after processing. -/
theorem process_data_preserves_type (df : List Row) :
    (process_data df).map (fun r => r.type) = df.map fun r => r.type := by
  simp only [process_data, List.map_map]
  rfl

/-- C3 counterexample: the dashboard reads no CSV.  Its conversion records
are the inline `data` literal of the source file (line 60: "Directly load
the data from the table"), so the rendered total-revenue KPI is the closed
constant 648642.89 dollars (64864289 cents), fixed by the source text alone
and not a function of any external CSV contents. -/
theorem kpis_not_from_csv : total_revenue = 64864289 ∧ data.length = 55 := by
  refine ⟨by decide, by decide⟩

/-- C3 (amended): the conversion records are embedded in the source as the
55-record list literal `data`, and the rendered KPI block and monthly chart
aggregate are functions of that embedded dataset. -/
theorem kpis_function_of_embedded_data :
    (total_revenue, total_endpoints, paid_leads, zero_cost_leads) = kpisOf data
    ∧ monthly_revenue = monthlyRevenueOf (process_data data) :=
  ⟨rfl, rfl⟩

/-- C4: a row's derived deployment flag is "Cloud" exactly when the
lowercased product name contains the substring "cloud", and is
"On-Premises" otherwise. -/
theorem deployment_cloud_iff (r : Row) :
    ((processRow r).deployment = "Cloud"
      ↔ ∃ p t, (lowerStr r.product).data = p ++ "cloud".data ++ t)
    ∧ ((¬ ∃ p t, (lowerStr r.product).data = p ++ "cloud".data ++ t) →
        (processRow r).deployment = "On-Premises") := by
  have key : listContains "cloud".data (lowerStr r.product).data = true
      ↔ ∃ p t, (lowerStr r.product).data = p ++ "cloud".data ++ t :=
    listContains_iff _ _
  by_cases h : listContains "cloud".data (lowerStr r.product).data = true
  · have hC : (processRow r).deployment = "Cloud" := by
      show deploymentOf r.product = "Cloud"
      unfold deploymentOf
      rw [if_pos h]
    rw [hC]
    exact ⟨iff_of_true rfl (key.mp h), fun hn => absurd (key.mp h) hn⟩
  · have hO : (processRow r).deployment = "On-Premises" := by
      show deploymentOf r.product = "On-Premises"
      unfold deploymentOf
      rw [if_neg h]
    rw [hO]
    exact ⟨iff_of_false (by decide) (fun hex => h (key.mpr hex)), fun _ => rfl⟩

/-- Witness for C4 at two concrete records: "Endpoint Central" derives
"On-Premises" and "PMP Cloud" derives "Cloud". -/
theorem deployment_cloud_iff_witness :
    (processRow row0).deployment = "On-Premises"
    ∧ (processRow row1).deployment = "Cloud" :=
  ⟨(deployment_cloud_iff row0).2 (fun hex =>
      absurd ((listContains_iff _ _).mpr hex) (by decide)),
    (deployment_cloud_iff row1).1.mpr ⟨"pmp ".data, [], by decide⟩⟩

/-- C5: the monthly-revenue aggregate handed to the bar chart maps each of
the dataset's distinct months to the revenue sum (in cents) of exactly the
rows bearing that month, its rows come in calendar order (Jan, Feb, Mar,
Apr, May — `month_order` positions 1 to 5, strictly increasing), and the
month sums add up to the dataset's total revenue. -/
theorem monthly_revenue_correct :
    monthly_revenue.map (fun p => p.1) = ["Jan", "Feb", "Mar", "Apr", "May"]
    ∧ monthly_revenue.map (fun p => monthNum p.1)
        = [some 1, some 2, some 3, some 4, some 5]
    ∧ (∀ p ∈ monthly_revenue,
        p.2 = ((processed_df.filter fun r => r.month == p.1).map fun r => r.revenue).sum)
    ∧ (∀ r ∈ processed_df, r.month ∈ monthly_revenue.map fun p => p.1)
    ∧ (monthly_revenue.map fun p => p.2).sum = total_revenue := by
  refine ⟨by decide, by decide, by decide, by decide, by decide⟩

/-- Witness for C5 at the January entry of the aggregate and the first
processed row. -/
theorem monthly_revenue_correct_witness :
    ((946122 : ℤ)
      = ((processed_df.filter fun r => r.month == "Jan").map fun r => r.revenue).sum)
    ∧ (processRow row0).month ∈ monthly_revenue.map fun p => p.1 :=
  ⟨monthly_revenue_correct.2.2.1 ("Jan", 946122) (by decide),
    monthly_revenue_correct.2.2.2.1 (processRow row0) (by decide)⟩

/-- C6: every row's derived month abbreviation is the portion of its
'update_as' string before the first space character; "Jan 2025" yields
"Jan". -/
theorem month_before_first_space :
    (∀ r : Row, (processRow r).month = ⟨r.update_as.data.takeWhile fun c => !(c == ' ')⟩)
    ∧ monthOf "Jan 2025" = "Jan" := by
  refine ⟨fun r => ?_, by decide⟩
  show monthOf r.update_as = _
  unfold monthOf
  exact congrArg String.mk (headD_splitOnChar ' ' r.update_as.data)

/-- C7: the Total Revenue KPI value is the sum of the revenue field (in
cents) over all conversion records of the dataset. -/
theorem total_revenue_is_sum :
    total_revenue = (data.map fun r => r.revenue).sum := by
  simp only [total_revenue, processed_df, process_data, List.map_map]
  rfl

/-- C8: on every dataframe, the paid and zero-cost lead counts are the
numbers of distinct (Domain, type) pairs with type "Purchased" and
"Zero Cost" respectively, and each average-revenue KPI always yields a
value (never the `IndexError` of `.values[0]`, never a division by zero):
the lead type's total revenue divided by its lead count when that count is
positive, and 0 when it is zero. -/
theorem lead_counts_and_averages (rows : List PRow) :
    leadCountOf "Purchased" rows
      = ((rows.map fun r => (r.Domain, r.type)).toFinset.filter
          fun p => p.2 = "Purchased").card
    ∧ leadCountOf "Zero Cost" rows
      = ((rows.map fun r => (r.Domain, r.type)).toFinset.filter
          fun p => p.2 = "Zero Cost").card
    ∧ avgRevenuePerLeadOf "Purchased" rows
      = some (if 0 < leadCountOf "Purchased" rows then
          ((((rows.filter fun r => r.type == "Purchased").map fun r => r.revenue).sum : ℤ) : ℚ)
            / (leadCountOf "Purchased" rows : ℚ) else 0)
    ∧ avgRevenuePerLeadOf "Zero Cost" rows
      = some (if 0 < leadCountOf "Zero Cost" rows then
          ((((rows.filter fun r => r.type == "Zero Cost").map fun r => r.revenue).sum : ℤ) : ℚ)
            / (leadCountOf "Zero Cost" rows : ℚ) else 0) :=
  ⟨leadCountOf_eq_card _ _, leadCountOf_eq_card _ _,
    avgRevenuePerLeadOf_eq _ _, avgRevenuePerLeadOf_eq _ _⟩

/-- C9 counterexample: `process_data` does change the values of
pre-existing columns — on a row whose revenue cell holds the non-numeric
string "abc", `pd.to_numeric(..., errors='coerce')` replaces it by NaN in
the result. -/
theorem process_data_modifies_revenue :
    PyRow.revenue pyRowBad = PyVal.str "abc"
    ∧ (pyProcessRow pyRowBad).revenue = PyVal.nan
    ∧ PyVal.nan ≠ PyVal.str "abc" := by
  refine ⟨rfl, rfl, by decide⟩

/-- C9 (amended): `process_data` works on a copy, adds only the columns
'month', 'deployment' and 'edition_simple', leaves the non-coerced columns
(Domain, license_date, country, industry, type, cpl) unchanged, and leaves
the five coerced columns unchanged whenever they already have the coerced
type — numeric or NaN revenue and endpoints, string update_as, product and
edition. -/
theorem process_data_frame (r : PyRow) :
    (pyProcessRow r).Domain = r.Domain
    ∧ (pyProcessRow r).license_date = r.license_date
    ∧ (pyProcessRow r).country = r.country
    ∧ (pyProcessRow r).industry = r.industry
    ∧ (pyProcessRow r).type = r.type
    ∧ (pyProcessRow r).cpl = r.cpl
    ∧ (∀ q, r.revenue = .num q → (pyProcessRow r).revenue = .num q)
    ∧ (r.revenue = .nan → (pyProcessRow r).revenue = .nan)
    ∧ (∀ q, r.endpoints = .num q → (pyProcessRow r).endpoints = .num q)
    ∧ (r.endpoints = .nan → (pyProcessRow r).endpoints = .nan)
    ∧ (∀ s, r.update_as = .str s → (pyProcessRow r).update_as = .str s)
    ∧ (∀ s, r.product = .str s → (pyProcessRow r).product = .str s)
    ∧ (∀ s, r.edition = .str s → (pyProcessRow r).edition = .str s) := by
  refine ⟨rfl, rfl, rfl, rfl, rfl, rfl, ?_, ?_, ?_, ?_, ?_, ?_, ?_⟩
  · intro q h
    show toNumericVal r.revenue = _
    rw [h]
    rfl
  · intro h
    show toNumericVal r.revenue = _
    rw [h]
    rfl
  · intro q h
    show toNumericVal r.endpoints = _
    rw [h]
    rfl
  · intro h
    show toNumericVal r.endpoints = _
    rw [h]
    rfl
  · intro s h
    show astypeStrVal r.update_as = _
    rw [h]
    rfl
  · intro s h
    show astypeStrVal r.product = _
    rw [h]
    rfl
  · intro s h
    show astypeStrVal r.edition = _
    rw [h]
    rfl

/-- Witness for the amended C9 at a well-typed concrete row. -/
theorem process_data_frame_witness :
    (pyProcessRow pyRowTyped).revenue = PyVal.num 99
    ∧ (pyProcessRow pyRowTyped).update_as = PyVal.str "Feb 2025" :=
  ⟨(process_data_frame pyRowTyped).2.2.2.2.2.2.1 99 rfl,
    (process_data_frame pyRowTyped).2.2.2.2.2.2.2.2.2.2.1 "Feb 2025" rfl⟩

/-- C10: the ten endpoint-size ranges partition the non-negative integers —
every non-negative endpoint count satisfies exactly one range condition —
and for any dataframe whose endpoint values are all non-negative, the
bucket counts of the endpoint-size distribution sum to the number of
records. -/
theorem endpoint_buckets_partition :
    (∀ e : ℤ, 0 ≤ e → size_ranges.countP (fun rg => inSizeRange e rg) = 1)
    ∧ ∀ rows : List PRow, (∀ r ∈ rows, 0 ≤ r.endpoints) →
        ((endpoint_size_distribution rows).map fun p => p.2).sum = rows.length :=
  ⟨size_ranges_partition, fun rows h => endpoint_counts_sum rows h⟩

/-- Witness for C10 at the endpoint count 250 and at the dashboard's own
processed dataframe. -/
theorem endpoint_buckets_partition_witness :
    size_ranges.countP (fun rg => inSizeRange (250 : ℤ) rg) = 1
    ∧ ((endpoint_size_distribution processed_df).map fun p => p.2).sum
        = processed_df.length :=
  ⟨endpoint_buckets_partition.1 250 (by decide),
    endpoint_buckets_partition.2 processed_df (by decide)⟩

end Dashboard
